import Mathlib

/-!
Verification of the UI/async bridge and crash-resilient logging bootstrap of
TwitchDropsMiner-Android (`src/main.py`), as a shallow embedding in Lean 4.

File-system and scheduler effects are made explicit:
* the crash-log file is a `List String` of appended chunks;
* each fallible I/O operation attempted by the code is given an explicit
  boolean outcome (`WLIo`), so that "the exception is swallowed" becomes a
  theorem over all outcomes;
* `asyncio.run_coroutine_threadsafe` is modelled as appending the submitted
  coroutine to a pending-task queue (`AppState.queue`) that the caller does
  not drain: the coroutine's own effects happen only when the background
  loop later executes it, never synchronously inside the submitting call.

The `TwitchClient` collaborator is not part of the supplied source; its
`_running` indicator is modelled from the spec (see `AppState.running`).
-/

namespace TDMA

/-! ## Crash-log bootstrap: `_get_log_dir`, `_write_log`, `_TeeStream`, `_excepthook` -/

/-- Package name used by `_get_log_dir` (`pkg = 'org.example.twitchdropsminer'`). -/
def pkg : String := "org.example.twitchdropsminer"

/-- Embedding of `_get_log_dir()`.  `androidEnv` is whether `ANDROID_ARGUMENT`
is in the environment; `primaryMkdirOk` is the outcome of
`candidate.mkdir(parents=True, exist_ok=True)` on the primary external-storage
path (the raised `OSError` is caught and the internal fallback path is
returned without attempting to create it); `home` is `Path.home()`. -/
def get_log_dir (androidEnv : Bool) (primaryMkdirOk : Bool) (home : String) : String :=
  if androidEnv then
    if primaryMkdirOk then "/sdcard/Android/data/" ++ pkg ++ "/files"
    else "/data/user/0/" ++ pkg ++ "/files"
  else home ++ "/.twitch_drops_android"

/-- Outcomes of the three I/O operations attempted by the body of
`_write_log`: `LOG_DIR.mkdir(parents=True, exist_ok=True)`, `open(CRASH_LOG,
'a', ...)`, and `fh.write(text)`.  `false` means the operation raises. -/
structure WLIo where
  mkdirOk : Bool
  openOk : Bool
  writeOk : Bool
deriving DecidableEq

/-- The `try` body of `_write_log`: mkdir, then open the crash log in append
mode, then write.  The first failing operation raises (`Except.error`); on
success the file has `text` appended. -/
def write_log_attempt (io : WLIo) (file : List String) (text : String) :
    Except String (List String) :=
  if io.mkdirOk = false then Except.error "mkdir failed"
  else if io.openOk = false then Except.error "open failed"
  else if io.writeOk = false then Except.error "write failed"
  else Except.ok (file ++ [text])

/-- Embedding of `_write_log(text)`: the body runs under
`try: ... except Exception: pass`, so every raised error is swallowed and the
function returns normally with the file unchanged. -/
def write_log (io : WLIo) (file : List String) (text : String) : List String :=
  match write_log_attempt io file text with
  | Except.ok f => f
  | Except.error _ => file

/-- Outcomes of the operations attempted by `_TeeStream.write`: the `_write_log`
call and the forwarded `self._orig.write(s)` (whose failure is swallowed). -/
structure TeeIo where
  wl : WLIo
  origWriteOk : Bool

/-- Embedding of `_TeeStream.write(s)`: duplicate to the crash log via
`_write_log`, then forward to the original stream, swallowing a forwarding
failure.  Returns the crash-log file and the original stream's contents. -/
def tee_write (io : TeeIo) (file orig : List String) (s : String) :
    List String × List String :=
  (write_log io.wl file s, if io.origWriteOk then orig ++ [s] else orig)

/-- The crash entry `_excepthook` writes:
`'\n=== CRASH <ts> ===\n' + tb + '\n'` where `ts` is the
`%Y-%m-%d %H:%M:%S` timestamp and `tb` is
`''.join(traceback.format_exception(...))`. -/
def format_crash_entry (ts tb : String) : String :=
  "\n=== CRASH " ++ ts ++ " ===\n" ++ tb ++ "\n"

/-- Embedding of `_excepthook(exc_type, exc_value, exc_tb)`: append the crash
entry via `_write_log`, then call `sys.__excepthook__` (the platform default
handler); the second component records that this delegation always happens. -/
def excepthook_run (io : WLIo) (file : List String) (ts tb : String) :
    List String × Bool :=
  (write_log io file (format_crash_entry ts tb), true)

/-! ## File-handle discipline of the three crash-log writers

`_write_log` opens the crash-log file with `with open(CRASH_LOG, 'a', ...)`
and closes it on exit, on every call.  The logging route installed at module
scope is different: `crash_log_handler = logging.FileHandler(str(CRASH_LOG),
encoding='utf-8')` — Python's `logging.FileHandler` opens its stream when
first needed and keeps it open across `emit()` calls until `close()`. -/

/-- How a writer to the crash-log file manages its handle. -/
inductive SinkImpl
  /-- Opens the file in append mode, writes, and closes it on every call
  (the `with open(...)` in `_write_log`). -/
  | withOpenClose
  /-- Holds a long-lived open handle across writes
  (`logging.FileHandler`, stdlib semantics). -/
  | fileHandler
deriving DecidableEq

/-- The global exception hook writes via `_write_log` (line 73). -/
def excepthook_sink : SinkImpl := SinkImpl.withOpenClose

/-- The stderr tee writes via `_write_log` (line 51). -/
def tee_sink : SinkImpl := SinkImpl.withOpenClose

/-- The explicit log callback `on_print` writes via `logger.info`, which
reaches the file through `crash_log_handler`, a `logging.FileHandler`
attached to the root logger (lines 109-113, 166). -/
def log_callback_sink : SinkImpl := SinkImpl.fileHandler

/-- Whether a writer opens, writes and closes the file on each individual
append (as opposed to holding a long-lived open handle). -/
def opens_per_append : SinkImpl → Bool
  | SinkImpl.withOpenClose => true
  | SinkImpl.fileHandler => false

/-! ## App controller: `TwitchDropsMinerApp` -/

/-- The screens registered in `build()`. -/
inductive Screen
  | home
  | login
  | inventory
  | settingsScreen
  | channels
  | logs
deriving DecidableEq

/-- A coroutine submitted to the background loop with
`asyncio.run_coroutine_threadsafe`: `twitch_client.start()`,
`twitch_client.stop()` or `twitch_client.login()`. -/
inductive Coro
  | startC
  | stopC
  | loginC
deriving DecidableEq

/-- State of a built `TwitchDropsMinerApp` together with its collaborators,
as observable from the UI thread.

* `oauth_token`, `saves` — the `Settings` collaborator: its token and how
  many times `save()` has been called on it.
* `hasClient` — whether `self.twitch_client` is set (Python truthiness of
  the guard `if self.twitch_client and ...`).
* `running` — the client's `_running` indicator.  Modelled from the spec:
  `TwitchClient` is not in the supplied source; per the spec it exposes
  async `start()` / `stop()` and a boolean-ish running indicator, so
  `_running` flips only when the background loop actually executes those
  coroutines — never synchronously inside a UI-thread submission.
* `queue` — coroutines submitted via `run_coroutine_threadsafe` and not yet
  executed by the background loop.
* `current` — `screen_manager.current`.
* `ring` — `self.logs`, the bounded in-memory log list.
* `crashFile` — lines appended to the crash-log file by the logging handler.
* `pendingUi` — messages whose `update_logs_ui` callback has been scheduled
  with `Clock.schedule_once` and has not run yet. -/
structure AppState where
  oauth_token : String
  saves : Nat
  hasClient : Bool
  running : Bool
  queue : List Coro
  current : Screen
  ring : List String
  crashFile : List String
  pendingUi : List String
deriving DecidableEq

/-- Embedding of `start_mining()`:
`if self.twitch_client and not self.twitch_client._running:` submit
`twitch_client.start()` to the loop.  The call only reads `_running`; it
does not record that a start was requested. -/
def start_mining (s : AppState) : AppState :=
  if s.hasClient && !s.running then { s with queue := s.queue ++ [Coro.startC] }
  else s

/-- Embedding of `stop_mining()`:
`if self.twitch_client and self.twitch_client._running:` submit
`twitch_client.stop()` to the loop. -/
def stop_mining (s : AppState) : AppState :=
  if s.hasClient && s.running then { s with queue := s.queue ++ [Coro.stopC] }
  else s

/-- Embedding of `login(oauth_token)`: set `settings.oauth_token`, call
`settings.save()`, submit `twitch_client.login()` (an unguarded attribute
access: with no client this raises, hence `none`), set the current screen to
`'home'`, and return without executing the submitted coroutine. -/
def login (s : AppState) (tok : String) : Option AppState :=
  let s1 := { s with oauth_token := tok, saves := s.saves + 1 }
  if s1.hasClient then
    some { s1 with queue := s1.queue ++ [Coro.loginC], current := Screen.home }
  else none

/-- Embedding of `logout()`: `stop_mining()`, then clear
`settings.oauth_token`, call `settings.save()`, and set the current screen
to `'login'`. -/
def logout (s : AppState) : AppState :=
  let s1 := stop_mining s
  { s1 with oauth_token := "", saves := s1.saves + 1, current := Screen.login }

/-- The screen `build()` selects after registering the screens:
`if self.settings.oauth_token:` (string truthiness) the current screen is
`'home'`, else `'login'`. -/
def build_current (oauth_token : String) : Screen :=
  if oauth_token ≠ "" then Screen.home else Screen.login

/-- The line the root logger's crash-log handler appends for
`logger.info(message)` under the formatter
`'%(asctime)s - %(name)s - %(levelname)s - %(message)s'` with logger name
`"TwitchDrops"` at level INFO. -/
def fmt_log_line (asctime msg : String) : String :=
  asctime ++ " - TwitchDrops - INFO - " ++ msg

/-- The ring update in `on_print`: `self.logs.append(message)` followed by
`if len(self.logs) > 500: self.logs.pop(0)`. -/
def ring_append (logs : List String) (msg : String) : List String :=
  let l := logs ++ [msg]
  if 500 < l.length then l.tail else l

/-- Embedding of `on_print(message)`: `logger.info(message)` routes the
formatted line to the crash-log file through the root logger's handler;
the bounded ring is updated; `update_logs_ui` is scheduled on the UI thread
via `_update_ui` / `Clock.schedule_once` (queued, not run). -/
def on_print (s : AppState) (asctime msg : String) : AppState :=
  { s with
    crashFile := s.crashFile ++ [fmt_log_line asctime msg]
    ring := ring_append s.ring msg
    pendingUi := s.pendingUi ++ [msg] }

/-- Embedding of the `update_logs_ui(msg)` closure scheduled by `on_print`:
when it runs on the UI thread it checks `self.screen_manager.current ==
'logs'` at that moment and only then calls `add_log(msg)` on the logs
screen.  `some msg` means `add_log` is invoked with `msg`; `none` means the
message is not delivered to the on-screen log. -/
def update_logs_ui (currentAtRun : Screen) (msg : String) : Option String :=
  if currentAtRun = Screen.logs then some msg else none

/-- Folding `on_print` over a sequence of messages (all stamped by the
logging formatter with some timestamp string). -/
def run_prints (s : AppState) (asctime : String) (msgs : List String) : AppState :=
  msgs.foldl (fun st m => on_print st asctime m) s

/-- A freshly built app state: client constructed, not running, nothing
queued, empty ring and log file, token absent. -/
def initApp : AppState :=
  { oauth_token := ""
    saves := 0
    hasClient := true
    running := false
    queue := []
    current := Screen.login
    ring := []
    crashFile := []
    pendingUi := [] }

/-- An app state in which the client's running indicator is set. -/
def runningApp : AppState :=
  { initApp with running := true }

/-! ## Theorems -/

set_option maxRecDepth 4000 in
/-- C1 counterexample: in a freshly built app (client present, `_running`
false, empty loop queue), calling `start_mining()` twice in a row — with no
background-loop progress in between, so the start has been requested but the
client has not yet confirmed anything — submits the start coroutine twice,
not once: the claimed idempotence fails. -/
theorem start_mining_twice_two_submissions :
    (start_mining (start_mining initApp)).queue.length = 2 ∧
    ¬ (start_mining (start_mining initApp)).queue.length = 1 := by
  have h : (start_mining (start_mining initApp)).queue = [Coro.startC, Coro.startC] := by
    simp [start_mining, initApp]
  rw [h]
  exact ⟨rfl, by decide⟩

/-- C1 (amended): `start_mining()` is a no-op only once the client's
`_running` indicator is set.  While `_running` is still false — in particular
after a start has been requested but before the background loop executes the
start coroutine — every call submits again: two calls in a row submit the
start coroutine twice.  The guard reads `twitch_client._running` and records
nothing about pending requests. -/
theorem start_mining_guard_is_running_flag (s : AppState) :
    (s.running = true → start_mining (start_mining s) = s) ∧
    (s.hasClient = true → s.running = false →
      (start_mining (start_mining s)).queue = s.queue ++ [Coro.startC, Coro.startC]) := by
  constructor
  · intro h
    have h1 : start_mining s = s := by
      unfold start_mining
      simp [h]
    rw [h1, h1]
  · intro hc hr
    have h1 : start_mining s = { s with queue := s.queue ++ [Coro.startC] } := by
      unfold start_mining
      simp [hc, hr]
    rw [h1]
    unfold start_mining
    simp [hc, hr]

/-- Witness for the amended C1 theorem at concrete states. -/
theorem start_mining_guard_is_running_flag_witness :
    start_mining (start_mining runningApp) = runningApp ∧
    (start_mining (start_mining initApp)).queue = initApp.queue ++ [Coro.startC, Coro.startC] :=
  ⟨(start_mining_guard_is_running_flag runningApp).1 rfl,
   (start_mining_guard_is_running_flag initApp).2 rfl rfl⟩

/-- C2: folding `on_print`'s ring update over any sequence of messages leaves
exactly the most recent 500 messages, oldest first (`drop (n - 500)`); hence
the ring never exceeds 500 entries after any call, and for sequences of at
most 500 messages it holds exactly the whole sequence in submission order. -/
theorem ring_holds_most_recent_500 (msgs : List String) :
    msgs.foldl ring_append [] = msgs.drop (msgs.length - 500) ∧
    (msgs.foldl ring_append []).length ≤ 500 ∧
    (msgs.length ≤ 500 → msgs.foldl ring_append [] = msgs) := by
  have main : msgs.foldl ring_append [] = msgs.drop (msgs.length - 500) := by
    induction msgs using List.reverseRecOn with
    | nil => simp
    | append_singleton xs m ih =>
      rw [List.foldl_append, List.foldl_cons, List.foldl_nil, ih]
      by_cases h : 500 ≤ xs.length
      · have hX : (xs.drop (xs.length - 500)).length = 500 := by
          rw [List.length_drop]
          omega
        have hgt : 500 < (xs.drop (xs.length - 500) ++ [m]).length := by
          rw [List.length_append, hX]
          simp
        have hdrop : xs.drop (xs.length - 500) ++ [m] = (xs ++ [m]).drop (xs.length - 500) := by
          rw [List.drop_append_of_le_length (by omega)]
        unfold ring_append
        rw [if_pos hgt, hdrop, List.tail_drop]
        have hidx : xs.length - 500 + 1 = (xs ++ [m]).length - 500 := by
          rw [List.length_append, List.length_singleton]
          omega
        rw [hidx]
      · push_neg at h
        have h0 : xs.length - 500 = 0 := by omega
        rw [h0, List.drop_zero]
        have hle : ¬ 500 < (xs ++ [m]).length := by
          rw [List.length_append]
          simp
          omega
        unfold ring_append
        rw [if_neg hle]
        have h1 : (xs ++ [m]).length - 500 = 0 := by
          rw [List.length_append]
          simp
          omega
        rw [h1, List.drop_zero]
  refine ⟨main, ?_, ?_⟩
  · rw [main, List.length_drop]
    omega
  · intro h
    rw [main, Nat.sub_eq_zero_of_le h, List.drop_zero]

/-- Witness for C2 at a concrete two-message sequence. -/
theorem ring_holds_most_recent_500_witness :
    ["a", "b"].foldl ring_append [] = ["a", "b"] :=
  (ring_holds_most_recent_500 ["a", "b"]).2.2 (by decide)

/-- C3: every message passed to `on_print` is appended (formatted by the
logging layout) to the durable crash-log file, unconditionally: each call
appends exactly its own line, and over any sequence of calls, from any
starting state — any current screen, any ring contents, including states
where the ring has already evicted entries — the file gains every message
ever logged, in order. -/
theorem on_print_writes_through (s : AppState) (ts : String) (msgs : List String) :
    (run_prints s ts msgs).crashFile = s.crashFile ++ msgs.map (fmt_log_line ts) ∧
    ∀ msg, (on_print s ts msg).crashFile = s.crashFile ++ [fmt_log_line ts msg] := by
  constructor
  · induction msgs generalizing s with
    | nil => simp [run_prints]
    | cons m rest ih =>
      unfold run_prints at ih ⊢
      rw [List.foldl_cons, ih]
      simp [on_print]
  · intro msg
    rfl

/-- C4: `_write_log` never raises for any I/O outcome: on any failure —
including failure of the `mkdir` that creates the log directory (the case in
which the earlier primary-directory creation already failed and the fallback
directory is being used) and failure to open or write the file — the
exception is swallowed and the call returns with the file unchanged; on
success the text is appended.  Moreover `_get_log_dir` itself absorbs a
primary-directory creation failure by returning the fallback path. -/
theorem write_log_never_raises (io : WLIo) (file : List String) (text : String) :
    (write_log io file text = file ∨ write_log io file text = file ++ [text]) ∧
    (io.mkdirOk = false → write_log io file text = file) ∧
    (∀ e, write_log_attempt io file text = Except.error e → write_log io file text = file) ∧
    (∀ home : String, get_log_dir true false home = "/data/user/0/" ++ pkg ++ "/files") := by
  refine ⟨?_, ?_, ?_, ?_⟩
  · unfold write_log write_log_attempt
    rcases io with ⟨m, o, w⟩
    cases m <;> cases o <;> cases w <;> simp
  · intro h
    unfold write_log write_log_attempt
    simp [h]
  · intro e he
    unfold write_log
    rw [he]
  · intro home
    rfl

/-- Witness for C4: all three operations fail, the file is unchanged, and the
fallback log directory is returned when primary creation fails. -/
theorem write_log_never_raises_witness :
    write_log ⟨false, false, false⟩ ["x"] "y" = ["x"] ∧
    get_log_dir true false "/root" = "/data/user/0/org.example.twitchdropsminer/files" := by
  constructor
  · exact (write_log_never_raises ⟨false, false, false⟩ ["x"] "y").2.1 rfl
  · rw [(write_log_never_raises ⟨false, false, false⟩ ["x"] "y").2.2.2 "/root"]
    decide

/-- C5: for every uncaught exception reaching the installed hook, with the
log I/O succeeding, exactly one entry is appended to the crash-log file; the
entry is the timestamp header `=== CRASH <ts> ===` followed by the formatted
trace; with a non-empty trace the entry strictly extends the bare header;
and the hook then always delegates to `sys.__excepthook__` (second component
`true`), never suppressing the crash. -/
theorem excepthook_records_and_delegates (io : WLIo) (file : List String) (ts tb : String)
    (hm : io.mkdirOk = true) (ho : io.openOk = true) (hw : io.writeOk = true)
    (htb : tb ≠ "") :
    (excepthook_run io file ts tb).1
        = file ++ ["\n=== CRASH " ++ ts ++ " ===\n" ++ tb ++ "\n"] ∧
    format_crash_entry ts tb ≠ "\n=== CRASH " ++ ts ++ " ===\n" ∧
    0 < tb.length ∧
    (excepthook_run io file ts tb).2 = true := by
  have hpos : 0 < tb.length := by
    by_contra hc
    push_neg at hc
    have h0 : tb.length = 0 := Nat.le_zero.mp hc
    apply htb
    cases tb with
    | mk d =>
      simp [String.length] at h0
      simp [h0]
  refine ⟨?_, ?_, hpos, rfl⟩
  · unfold excepthook_run write_log write_log_attempt format_crash_entry
    simp [hm, ho, hw]
  · intro he
    have hlen := congrArg String.length he
    simp only [format_crash_entry, String.length_append] at hlen
    have h1 : ("\n" : String).length = 1 := rfl
    rw [h1] at hlen
    omega

/-- Witness for C5 at a concrete exception. -/
theorem excepthook_records_and_delegates_witness :
    (excepthook_run ⟨true, true, true⟩ [] "2024-01-01 00:00:00" "Traceback (most recent call last)").1
        = ["\n=== CRASH 2024-01-01 00:00:00 ===\nTraceback (most recent call last)\n"] ∧
    (excepthook_run ⟨true, true, true⟩ [] "2024-01-01 00:00:00" "Traceback (most recent call last)").2
        = true := by
  have h := excepthook_records_and_delegates ⟨true, true, true⟩ []
    "2024-01-01 00:00:00" "Traceback (most recent call last)" rfl rfl rfl (by decide)
  exact ⟨h.1, h.2.2.2⟩

/-- C6 counterexample: it is not the case that every crash-log writer opens,
writes and closes the file on each individual append — the explicit log
callback's route (`crash_log_handler`, a `logging.FileHandler`) holds a
long-lived open handle. -/
theorem crash_log_handler_persistent_handle :
    ¬ (opens_per_append excepthook_sink = true ∧ opens_per_append tee_sink = true ∧
       opens_per_append log_callback_sink = true) := by
  decide

/-- C6 (amended): the global exception hook and the stderr tee append through
`_write_log`, which opens the file in append mode, writes, and closes it on
every call; the explicit log callback instead writes through the root
logger's `logging.FileHandler`, which keeps a long-lived open handle to the
crash-log file. -/
theorem crash_log_sink_disciplines :
    opens_per_append excepthook_sink = true ∧
    opens_per_append tee_sink = true ∧
    opens_per_append log_callback_sink = false := by
  decide

/-- C7: in a built app (client present), `login(tok)` returns having set the
stored token to exactly `tok`, triggered exactly one settings save, submitted
exactly one login coroutine to the background loop (the queue grows by one
pending `loginC`, which the call does not execute), and set the current
screen to `home`; the ring and the client's running state are untouched. -/
theorem login_effects (s : AppState) (tok : String) (h : s.hasClient = true) :
    ∃ s2, login s tok = some s2 ∧ s2.oauth_token = tok ∧ s2.saves = s.saves + 1 ∧
      s2.queue = s.queue ++ [Coro.loginC] ∧ s2.current = Screen.home ∧
      s2.ring = s.ring ∧ s2.running = s.running := by
  unfold login
  simp only [h, if_true]
  exact ⟨_, rfl, rfl, rfl, rfl, rfl, rfl, rfl⟩

/-- Witness for C7: `login("abc123")` on the freshly built app. -/
theorem login_effects_witness :
    ∃ s2, login initApp "abc123" = some s2 ∧ s2.oauth_token = "abc123" ∧
      s2.saves = initApp.saves + 1 ∧ s2.queue = initApp.queue ++ [Coro.loginC] ∧
      s2.current = Screen.home ∧ s2.ring = initApp.ring ∧ s2.running = initApp.running :=
  login_effects initApp "abc123" rfl

/-- C8: `logout()` always clears the stored token, triggers exactly one
settings save, and sets the current screen to `login`; the stop coroutine is
submitted exactly when the client is present and its running indicator is
set, and nothing is submitted when it is not running. -/
theorem logout_effects (s : AppState) :
    (logout s).oauth_token = "" ∧ (logout s).saves = s.saves + 1 ∧
    (logout s).current = Screen.login ∧
    (s.hasClient = true → s.running = true → (logout s).queue = s.queue ++ [Coro.stopC]) ∧
    (s.running = false → (logout s).queue = s.queue) := by
  have hq : (logout s).queue
      = if s.hasClient && s.running then s.queue ++ [Coro.stopC] else s.queue := by
    unfold logout stop_mining
    by_cases h : (s.hasClient && s.running) = true <;> simp [h]
  have hsav : (logout s).saves = s.saves + 1 := by
    unfold logout stop_mining
    by_cases h : (s.hasClient && s.running) = true <;> simp [h]
  refine ⟨rfl, hsav, rfl, ?_, ?_⟩
  · intro hc hr
    rw [hq]
    simp [hc, hr]
  · intro hr
    rw [hq]
    simp [hr]

/-- Witness for C8 at a running and a stopped app. -/
theorem logout_effects_witness :
    (logout runningApp).oauth_token = "" ∧
    (logout runningApp).queue = runningApp.queue ++ [Coro.stopC] ∧
    (logout initApp).queue = initApp.queue :=
  ⟨(logout_effects runningApp).1,
   (logout_effects runningApp).2.2.2.1 rfl rfl,
   (logout_effects initApp).2.2.2.2 rfl⟩

/-- C9: the screen `build()` selects is determined solely by the stored oauth
token — `home` exactly when the token is non-empty (truthy), `login` exactly
when it is empty. -/
theorem build_screen_from_token (tok : String) :
    (tok ≠ "" → build_current tok = Screen.home) ∧
    (tok = "" → build_current tok = Screen.login) := by
  constructor
  · intro h
    unfold build_current
    simp [h]
  · intro h
    unfold build_current
    simp [h]

/-- Witness for C9 at a stored token and an empty token. -/
theorem build_screen_from_token_witness :
    build_current "abc123" = Screen.home ∧ build_current "" = Screen.login :=
  ⟨(build_screen_from_token "abc123").1 (by decide),
   (build_screen_from_token "").2 rfl⟩

/-- C10: `on_print` only schedules the message for the UI thread (the pending
queue grows by the message; nothing is delivered synchronously); when the
scheduled callback runs, it invokes the logs screen's `add_log` exactly when
the current screen at that moment is `logs`, and delivers nothing when any
other screen is active. -/
theorem logs_ui_gated_on_current_screen (s : AppState) (ts msg : String) :
    (on_print s ts msg).pendingUi = s.pendingUi ++ [msg] ∧
    update_logs_ui Screen.logs msg = some msg ∧
    (∀ scr, scr ≠ Screen.logs → update_logs_ui scr msg = none) := by
  refine ⟨rfl, rfl, ?_⟩
  intro scr h
  unfold update_logs_ui
  simp [h]

/-- Witness for C10: a message arriving while the home screen is active is
scheduled but not delivered to the logs screen. -/
theorem logs_ui_gated_on_current_screen_witness :
    (on_print initApp "t" "m").pendingUi = initApp.pendingUi ++ ["m"] ∧
    update_logs_ui Screen.home "m" = none :=
  ⟨(logs_ui_gated_on_current_screen initApp "t" "m").1,
   (logs_ui_gated_on_current_screen initApp "t" "m").2.2 Screen.home (by decide)⟩

end TDMA
